import Mathlib

/-!
# Verification of the marketmaker content library (libmm)

A shallow embedding of the core of the `libmm` Python package:
the content data model (`Variant`, `Blueprint`, `VariantOverride`, `LinkedData`),
the export renderer (`Variant.render`), versioned lookup (`lookup_variant`),
library ingestion (`ingest_variants_from_library`), the check registry
(`checks.py`), the extension event pipeline (`extension.py`) and the
selector DSL (`selectors.py`).

Python strings are embedded as `String`, nullable values as `Option`,
Python lists as `List`, raised exceptions as `Except String`.
The process-global SQL session (insertion-ordered record store) is passed
explicitly as a `List` of records; the process-global mutable settings
object (`config.global_settings`) is passed explicitly where a function
reads it.
-/

set_option autoImplicit false

namespace LibMM

/-! ## String helpers

Executable character-list implementations of the Python `str` operations used
by the source (`replace`, `split`, `lower`, containment, `startswith`,
`endswith`).  These are written from scratch so that every definition reduces
in the kernel.
-/

/-- `listStartsWith hay pat` is true when `pat` is an initial segment of `hay`. -/
def listStartsWith : List Char → List Char → Bool
  | _, [] => true
  | [], _ :: _ => false
  | a :: as, b :: bs => a == b && listStartsWith as bs

/-- `listHasSub hay pat`: `pat` occurs as a contiguous run inside `hay`
(Python `pat in hay`). -/
def listHasSub : List Char → List Char → Bool
  | [], pat => pat.isEmpty
  | c :: t, pat => listStartsWith (c :: t) pat || listHasSub t pat

/-- Python `pat in s` on strings. -/
def strHasSub (s pat : String) : Bool :=
  listHasSub s.toList pat.toList

/-- Replace every occurrence of a (nonempty) pattern, scanning left to
right, with structural fuel (one unit per consumed character; `fuel ≥
hay.length` makes the fuel branch unreachable). -/
def listReplaceFuel (rep pat : List Char) : Nat → List Char → List Char
  | 0, hay => hay
  | _ + 1, [] => []
  | fuel + 1, c :: t =>
    if pat ≠ [] ∧ listStartsWith (c :: t) pat then
      rep ++ listReplaceFuel rep pat fuel ((c :: t).drop pat.length)
    else
      c :: listReplaceFuel rep pat fuel t

/-- Python `str.replace` (all occurrences, left to right; an empty pattern
leaves the input unchanged — the source never replaces an empty pattern). -/
def strReplace (s pat rep : String) : String :=
  String.mk (listReplaceFuel rep.toList pat.toList s.toList.length s.toList)

/-- Split on a (nonempty) separator run, with structural fuel as in
`listReplaceFuel`.  `[] ↦ [[]]` so that `"".split(sep) = [""]`. -/
def listSplitFuel (sep : List Char) : Nat → List Char → List (List Char)
  | 0, hay => [hay]
  | _ + 1, [] => [[]]
  | fuel + 1, c :: t =>
    if sep ≠ [] ∧ listStartsWith (c :: t) sep then
      [] :: listSplitFuel sep fuel ((c :: t).drop sep.length)
    else
      match listSplitFuel sep fuel t with
      | [] => [[c]]
      | h :: r => (c :: h) :: r

/-- Python `str.split(sep)` for a nonempty separator. -/
def strSplitOnSub (s sep : String) : List String :=
  (listSplitFuel sep.toList s.toList.length s.toList).map String.mk

/-- Python `str.lower()` (ASCII is all the source needs). -/
def strToLower (s : String) : String :=
  String.mk (s.toList.map Char.toLower)

/-- Python `str.startswith`. -/
def strStartsWith (s pat : String) : Bool :=
  listStartsWith s.toList pat.toList

/-- Python `str.endswith`. -/
def strEndsWith (s pat : String) : Bool :=
  listStartsWith s.toList.reverse pat.toList.reverse

/-- Python `sep.join(parts)`. -/
def strJoin (sep : String) : List String → String
  | [] => ""
  | h :: t => t.foldl (fun acc x => acc ++ sep ++ x) h

/-- Python truthiness of an optional list (`None` and `[]` are falsy). -/
def truthyList (v : Option (List String)) : Bool :=
  match v with
  | none => false
  | some l => !l.isEmpty

/-- Python truthiness of an optional string (`None` and `""` are falsy). -/
def truthyStr (v : Option String) : Bool :=
  match v with
  | none => false
  | some s => !s.isEmpty

/-! ## Global settings (config.py)

`config.GlobalSettings` with the fields the core reads.  The defaults are the
`Field(default=...)` values of `config.py`; environment-variable resolution is
outside the embedding.  Functions that read the process-global
`global_settings` object receive the settings (or the single flag they read)
as an explicit argument.
-/

structure GlobalSettings where
  run_checks : Bool := true
  add_d3fend : Bool := false
  add_groups : Bool := false
  disable_extensions : Bool := false
  db_text_delimiter : String := "||"
deriving Repr, DecidableEq

/-- The default settings object built by `config.py` when no environment
variables are set. -/
def global_settings_defaults : GlobalSettings := {}

/-! ## Data model (sql.py)

Records are embedded as plain structures; the SQL `session` is a `List` of
records in insertion order.  Nullable columns are `Option`; `OptionalStrList`
columns are `Option (List String)` (a Python list whose elements are all
strings — list elements that are themselves `None` are not representable and
are not exercised by any claim).  SQLAlchemy relationship attributes that a
claim needs (`Variant.groups`, for rendering) are embedded as an explicit
field holding the names of the related records.
-/

/-- `sql.Variant` (sql.py:114-148).  `filepath` is the nullable source-file
path stored as a POSIX path string; `version` is the integer version parsed
from the file name; `groups` embeds the `Variant.groups` relationship as the
list of names of the `BlueprintGroup` records the variant is attached to. -/
structure Variant where
  id : String
  mav : Option Int := none
  filepath : Option String := none
  version : Nat
  name : String
  display_name : String
  description : String
  platforms : Option (List String) := none
  prerequisites : Option (List String) := none
  guidance : Option (List String) := none
  block : Option (List String) := none
  detect : Option (List String) := none
  controls : Option (List String) := none
  tactic : String
  tid : String
  tools : Option (List String) := none
  references : Option (List String) := none
  groups : List String := []
deriving Repr, DecidableEq

/-- `sql.VariantOverride` (sql.py:477-486).  The primary key is the
(variant id, blueprint id, campaign id) triple.  `display_name` is declared
`str` in the source but the loader passes `variant_block.get("name", None)`,
so it is nullable in practice. -/
structure VariantOverride where
  references : Option (List String) := none
  guidance : Option (List String) := none
  display_name : Option String := none
  variant_id : Option String := none
  blueprint_id : Option String := none
  campaign_id : Option String := none
deriving Repr, DecidableEq

/-- `sql.Blueprint` scalar columns (sql.py:301-338) together with the
per-instance `_loaded_flag` private attribute (initialized `False` in
`Blueprint.__init__`).  The source column named `prefix` is embedded as
`pfx` because `prefix` is a Lean keyword. -/
structure Blueprint where
  id : String
  name : String
  description : String
  sources : Option (List String) := none
  pfx : String := ""
  assessment : String := ""
  loaded_flag : Bool := false
deriving Repr, DecidableEq

/-- `sql.LinkedDataTarget` (sql.py:489-496). -/
inductive LinkedDataTarget where
  | Variant
  | Blueprint
deriving Repr, DecidableEq

/-- `sql.LinkedDataFormat` (sql.py:499-513). -/
inductive LinkedDataFormat where
  | Plaintext
  | Markdown
  | YAML
  | JSON
  | Unformatted
deriving Repr, DecidableEq

/-- `sql.LinkedData` columns (sql.py:516-524). -/
structure LinkedData where
  variant_id : Option String
  blueprint_id : Option String
  target_type : LinkedDataTarget
  data_format : LinkedDataFormat
  data : String
  origin : String
  display_name : String
deriving Repr, DecidableEq

/-- Constructing a `LinkedData` record runs `LinkedData.__post_init__`
(sql.py:526-528), which raises when both target identifiers are null.
No store is consulted: neither identifier is validated against existing
`Variant`/`Blueprint` rows (sql.py:530-532). -/
def mkLinkedData (variant_id blueprint_id : Option String)
    (target_type : LinkedDataTarget) (data_format : LinkedDataFormat)
    (data origin display_name : String) : Except String LinkedData :=
  if variant_id == none && blueprint_id == none then
    .error "Variant ID and Blueprint ID for linked data cannot both be null"
  else
    .ok ⟨variant_id, blueprint_id, target_type, data_format, data, origin, display_name⟩

/-! ## Export renderer (`Variant.render`, sql.py:164-257) -/

/-- A value stored in the rendered dictionary: a string field, a nullable
string-list field, or the D3FEND list (whose items are either a bare
artifact name or a mapping of an artifact name to its countermeasures). -/
inductive RVal where
  | s (v : String)
  | ls (v : Option (List String))
  | d3f (items : List (String ⊕ String × List String))
deriving Repr, DecidableEq

/-- The dictionary returned by `Variant.render`.  `entries` is the ordered
dict minus its `"metadata"` key; `metadata` is the nested metadata
dictionary, which in the source sits under the key `"metadata"`, inserted
after `"controls"` and before `"x_d3fend"`. -/
structure RenderedDict where
  entries : List (String × RVal)
  metadata : List (String × RVal)
deriving Repr, DecidableEq

/-- Dictionary key lookup on the ordered association list. -/
def lookupKey (l : List (String × RVal)) (k : String) : Option RVal :=
  match l with
  | [] => none
  | (k1, v1) :: t => if k1 = k then some v1 else lookupKey t k

/-- Python dict assignment `d[k] = v` on the ordered association list:
replaces the value in place when the key exists (keeping its position),
appends otherwise. -/
def setKey (l : List (String × RVal)) (k : String) (v : RVal) : List (String × RVal) :=
  match l with
  | [] => [(k, v)]
  | (k1, v1) :: t => if k1 = k then (k, v) :: t else (k1, v1) :: setKey t k v

/-- `list(set(names))` from sql.py:223, embedded as duplicate removal keeping
first occurrences (Python set iteration order is unspecified; no claim
depends on the order). -/
def dedupNames (l : List String) : List String :=
  l.foldl (fun acc n => if acc.contains n then acc else acc ++ [n]) []

/-- Membership of a metadata value in `[None, "", [], [None], [""]]`
(sql.py:228), the emptiness test of the "delete empty x_ metadata" loop.
`[None]` is not representable in the embedding (see the data-model note). -/
def metaValueEmpty : RVal → Bool
  | .s v => v == ""
  | .ls none => true
  | .ls (some l) => l == [] || l == [""]
  | .d3f _ => false

/-- sql.py:176-189: the manual `name` aliasing of `display_name` followed by
the `top_level_includes` inclusion loop (every include key is present in
`self.dict()`, so all seven keys are always inserted, in this order). -/
def renderInclude (v : Variant) : List (String × RVal) :=
  [("name", .s v.display_name),
   ("description", .s v.description),
   ("platforms", .ls v.platforms),
   ("guidance", .ls v.guidance),
   ("block", .ls v.block),
   ("detect", .ls v.detect),
   ("controls", .ls v.controls)]

/-- sql.py:191-198: the metadata dictionary as first built. -/
def renderMetadata (v : Variant) : List (String × RVal) :=
  [("id", .s v.id),
   ("tid", .s v.tid),
   ("tactic", .s v.tactic),
   ("x_tools", .ls v.tools),
   ("x_references", .ls v.references)]

/-- sql.py:200-206: the override query, guarded by
`if apply_overrides and blueprint_id` (Python truthiness of the id), taking
the `.first()` matching row in session order. -/
def renderFindOverride (v : Variant) (overrides : List VariantOverride)
    (apply_overrides : Bool) (blueprint_id : Option String) :
    Option VariantOverride :=
  if apply_overrides && truthyStr blueprint_id then
    overrides.find? (fun o =>
      o.variant_id == some v.id && o.blueprint_id == blueprint_id)
  else none

/-- sql.py:207-215: `if override:` — apply each override field that is
truthy to the pair (final_dict, metadata). -/
def renderApplyOverride (ovr : Option VariantOverride)
    (fm : List (String × RVal) × List (String × RVal)) :
    List (String × RVal) × List (String × RVal) :=
  match ovr with
  | none => fm
  | some o =>
    let m :=
      if truthyList o.references then
        setKey fm.2 "x_references" (.ls o.references)
      else fm.2
    let f :=
      if truthyStr o.display_name then
        setKey fm.1 "name" (.s (o.display_name.getD ""))
      else fm.1
    let f2 :=
      if truthyList o.guidance then setKey f "guidance" (.ls o.guidance)
      else f
    (f2, m)

/-- sql.py:217-223: append the `groups` metadata key when the feature is
enabled and the variant has groups. -/
def renderAddGroups (s : GlobalSettings) (v : Variant)
    (m : List (String × RVal)) : List (String × RVal) :=
  if s.add_groups && decide (0 < v.groups.length) then
    m ++ [("groups", .ls (some (dedupNames v.groups)))]
  else m

/-- sql.py:225-229: delete the empty `x_` metadata keys from the copy that
is placed in the final dictionary. -/
def renderPruneMeta (m : List (String × RVal)) : List (String × RVal) :=
  m.filter (fun p => !(strStartsWith p.1 "x_" && metaValueEmpty p.2))

/-- sql.py:231-252: optionally append the `x_d3fend` key built from the
MITRE D3FEND lookups. -/
def renderD3fend (s : GlobalSettings) (tid : String)
    (d3fOffArtifacts : String → List String) (d3fCtrm : String → List String)
    (f : List (String × RVal)) : List (String × RVal) :=
  if s.add_d3fend then
    if 0 < (d3fOffArtifacts tid).length then
      f ++ [("x_d3fend", .d3f ((d3fOffArtifacts tid).map (fun a =>
        if 0 < (d3fCtrm a).length then .inr (a, d3fCtrm a) else .inl a)))]
    else f
  else f

/-- `Variant.render` (sql.py:164-257), composed from the stages above in
source order.

Arguments beyond the source signature `(apply_overrides, blueprint_id)`
make the embedding explicit about the globals the method reads:

* `overrides` — the `VariantOverride` rows of the session, in insertion
  order (the source queries the session, sql.py:202-206);
* `s` — `config.global_settings`;
* `d3fOffArtifacts`, `d3fCtrm` — the external MITRE D3FEND lookups
  `get_d3fend_off_artifacts_for_tid` / `get_d3fend_ctrm_for_artifact`
  (mitre.py), each returning its result as a list.

The final `emit_event(TestCaseRender, ...)` hands the dictionary to the
extension pipeline (modeled separately); extension mutation of the returned
dictionary is outside the renderer itself. -/
def Variant.render (v : Variant) (overrides : List VariantOverride)
    (s : GlobalSettings) (apply_overrides : Bool) (blueprint_id : Option String)
    (d3fOffArtifacts : String → List String) (d3fCtrm : String → List String) :
    RenderedDict :=
  let ovr := renderFindOverride v overrides apply_overrides blueprint_id
  let fm := renderApplyOverride ovr (renderInclude v, renderMetadata v)
  let metadataF := renderPruneMeta (renderAddGroups s v fm.2)
  let final2 := renderD3fend s v.tid d3fOffArtifacts d3fCtrm fm.1
  ⟨final2, metadataF⟩

/-! ## Loader (sql.py) -/

/-- The override block a Blueprint campaign entry may carry in place of a bare
version (`variant_block` in `Blueprint.from_yaml`, sql.py:374-396):
`{version, references?, guidance?, name?}`. -/
structure OverrideBlock where
  version : Option String := none
  references : Option (List String) := none
  guidance : Option (List String) := none
  name : Option String := none
deriving Repr, DecidableEq

/-- The `VariantOverride(...)` construction in `Blueprint.from_yaml`
(sql.py:410-417).

The source passes the references value through the misspelled keyword
`referencces=`.  `VariantOverride` has no such field, and SQLModel table
models silently drop unknown constructor keywords, so the record's
`references` column keeps its default `None` — the block's references value
never reaches the stored Override row.  The dropped value is returned as the
second component so the slip is visible in the embedding. -/
def blueprintOverrideFromBlock (block : OverrideBlock)
    (variantId blueprintId campaignId : String) :
    VariantOverride × Option (List String) :=
  ({ references := none,
     guidance := block.guidance,
     display_name := block.name,
     variant_id := some variantId,
     blueprint_id := some blueprintId,
     campaign_id := some campaignId },
   block.references)

/-- `lookup_variant` (sql.py:607-633): filter the session on
(name, version, tid), then demand exactly one result. -/
def lookup_variant (store : List Variant) (tid name : String) (version : Nat) :
    Except String Variant :=
  let results := store.filter (fun v =>
    v.name == name && v.version == version && v.tid == tid)
  if 1 < results.length then
    .error ("Duplicate variants for version \"" ++ toString version ++
      "\" of variant \"" ++ name ++ "\" (\"" ++ tid ++ "\")")
  else
    match results with
    | [] =>
      .error ("Could not locate version \"" ++ toString version ++
        "\" of variant \"" ++ name ++ "\" (\"" ++ tid ++ "\")")
    | r :: _ => .ok r

/-- The aggregate error message of `ingest_variants_from_library`
(sql.py:600). -/
def aggregateIngestMsg : String :=
  "Errors encountered when loading Variants from library(s)"

/-- The per-file loop body outcomes of `ingest_variants_from_library`
(sql.py:586-600), in file-discovery order: `Variant.from_file` either stores
a Variant or raises, in which case the error is logged and the
`exceptions` flag is set.  Returns (stored variants, logged errors,
exceptions flag). -/
def ingestGo : List (Except String Variant) → List Variant × List String × Bool
  | [] => ([], [], false)
  | .ok v :: rest =>
    let r := ingestGo rest
    (v :: r.1, r.2.1, r.2.2)
  | .error m :: rest =>
    let r := ingestGo rest
    (r.1, m :: r.2.1, true)

/-- `ingest_variants_from_library` (sql.py:586-600) over the flattened list
of per-file parse outcomes.  Every file is processed; afterwards a single
aggregate error is raised exactly when any file failed. -/
def ingest_variants_from_library (files : List (Except String Variant)) :
    List Variant × List String × Except String Unit :=
  let r := ingestGo files
  (r.1, r.2.1, if r.2.2 then .error aggregateIngestMsg else .ok ())

/-! ## Extension pipeline (extension.py) -/

/-- `extension.EventTypes` (extension.py:14-65). -/
inductive EventTypes where
  | TestCaseRender
  | DbOjectInit
  | BlueprintLoaded
  | CliExit
  | CliStart
  | Init
  | Exit
  | DbReady
  | LinkTableReady
deriving Repr, DecidableEq

/-- An `extension.Extension` (extension.py:222-225): a loaded hook unit.
The handler embeds `AbstractUserHook.hook(event_type, context)`; it either
returns or raises.  Context payload plumbing (extension.py:322-330 builds
`event.context(*args, **kwargs)`) carries data to the hook but plays no role
in dispatch order or exception propagation, so the embedded handler receives
the event kind. -/
structure Extension where
  name : String
  hook : EventTypes → Except String Unit

/-- The `for extension in self.extensions` dispatch loop of
`ExtensionsManager.emit_event` (extension.py:328-330), returning the names of
the hooks whose handlers were invoked (in order) together with the first
propagated exception, if any.  There is no try/except around the handler
call: a raised exception propagates immediately and ends the loop. -/
def dispatchHooks (exts : List Extension) (ev : EventTypes) :
    List String × Option String :=
  match exts with
  | [] => ([], none)
  | e :: rest =>
    match e.hook ev with
    | .ok _ =>
      let r := dispatchHooks rest ev
      (e.name :: r.1, r.2)
    | .error msg => ([e.name], some msg)

/-- `ExtensionsManager.emit_event` (extension.py:322-330): a no-op when
extensions are disabled, otherwise the dispatch loop. -/
def emit_event (enabled : Bool) (exts : List Extension) (ev : EventTypes) :
    List String × Option String :=
  if enabled then dispatchHooks exts ev else ([], none)

/-- `Blueprint.emit_loaded` (sql.py:436-443) acting on the blueprint instance
and the global log of events emitted so far: emits `BlueprintLoaded` and sets
the per-instance flag on the first call, does nothing afterwards. -/
def Blueprint.emit_loaded (bp : Blueprint) (log : List EventTypes) :
    Blueprint × List EventTypes :=
  if !bp.loaded_flag then
    ({ bp with loaded_flag := true }, log ++ [EventTypes.BlueprintLoaded])
  else (bp, log)

/-- `n` successive calls of `Blueprint.emit_loaded` on the same in-memory
instance. -/
def emitLoadedIter : Nat → Blueprint × List EventTypes → Blueprint × List EventTypes
  | 0, st => st
  | n + 1, st => emitLoadedIter n (Blueprint.emit_loaded st.1 st.2)

/-! ## Check registry (checks.py) -/

/-- checks.py:13. -/
def MESSAGE_DELIMETER : String := " | "

/-- A concrete Variant check of the registry: its class name and its
`check(variant)` predicate (checks.py:60-65).  The registry
`VariantCheck.__subclasses__()` (checks.py:88) is embedded as the list of
these records passed to `run_all`. -/
structure VariantCheckDef where
  name : String
  check : Variant → Bool

/-- `VariantCheck.main` (checks.py:67-82): runs the check, builds the log
line (`<name> | id: <id> [| file: <path>] | result: <True/False>`), and
returns the result together with the logged line. -/
def VariantCheckDef.main (c : VariantCheckDef) (v : Variant) : Bool × String :=
  let result := c.check v
  let message := c.name ++ MESSAGE_DELIMETER ++ "id: " ++ v.id ++
    (if truthyStr v.filepath then
      MESSAGE_DELIMETER ++ "file: " ++ v.filepath.getD ""
    else "") ++
    MESSAGE_DELIMETER ++ "result: " ++ (if result then "True" else "False")
  (result, message)

/-- `Check.run` (checks.py:44-54): consults `global_settings.run_checks`;
when the toggle is off it returns `True` without calling `main` (and hence
without calling `check` or logging).  Returns the result together with the
lines logged by the call. -/
def VariantCheckDef.run (run_checks : Bool) (c : VariantCheckDef) (v : Variant) :
    Bool × List String :=
  if run_checks then
    let r := c.main v
    (r.1, [r.2])
  else (true, [])

/-- `VariantChecks.run_all` (checks.py:85-90): run every registered check and
return the conjunction of the results, together with all logged lines. -/
def run_all (run_checks : Bool) (checks : List VariantCheckDef) (v : Variant) :
    Bool × List String :=
  let results := checks.map (fun c => c.run run_checks v)
  ((results.map Prod.fst).all id, (results.map Prod.snd).flatten)

/-- `pathlib.Path(p).parent.parent.name` on an already-resolved POSIX path
string, as used by `VariantChecks.VariantTidPathTidMatch.check`
(checks.py:109): the name of the grandparent directory.  An empty string is
returned when the path is too short (pathlib's `name` of the root / `.`). -/
def pathParentParentName (p : String) : String :=
  let segs := (strSplitOnSub p "/").filter (fun s => !s.isEmpty)
  (segs.dropLast.dropLast).getLastD ""

/-- `VariantChecks.VariantTidPathTidMatch.check` (checks.py:101-109).
The body is `resolve_str_or_path(variant.filepath).parent.parent.name ==
variant.tid` with no guard on `filepath`: when `filepath` is `None`,
`Path(None)` raises `TypeError` (there is no vacuous pass, despite the
docstring). -/
def VariantTidPathTidMatch_check (v : Variant) : Except String Bool :=
  match v.filepath with
  | none =>
    .error "TypeError: argument should be a str or an os.PathLike object, not NoneType"
  | some p => .ok (pathParentParentName p == v.tid)

/-! ## Selector DSL (selectors.py) -/

/-- `selectors.SelectorType` (selectors.py:75-95). -/
inductive SelectorType where
  | Variant
  | Blueprint
deriving Repr, DecidableEq

/-- `CaseInsensitiveEnum._missing_` lookup (type.py:19-26) for
`SelectorType`: member name match, case-insensitive. -/
def selectorTypeOfString (s : String) : Option SelectorType :=
  if strToLower s == "variant" then some .Variant
  else if strToLower s == "blueprint" then some .Blueprint
  else none

/-- The selector key enums `VariantSelectorKey` (selectors.py:36-55) and
`BlueprintSelectorKey` (selectors.py:58-69), merged into one type (the two
Python enums never mix inside one selector; the parser below only produces
keys of the selector's own type).  The Blueprint `prefix` member is embedded
as `bPfx` (`prefix` is a Lean keyword). -/
inductive SelectorKey where
  | vId
  | vTid
  | vTactic
  | vName
  | vRequiresLadmin
  | bId
  | bName
  | bPfx
deriving Repr, DecidableEq

/-- `SelectorKeyEnum._missing_` (selectors.py:23-28): member name match on
the lowercased input with underscores stripped, against the keys of the
given selector type. -/
def selectorKeyOfString (t : SelectorType) (s : String) : Option SelectorKey :=
  let c := strReplace (strToLower s) "_" ""
  match t with
  | .Variant =>
    if c == "id" then some .vId
    else if c == "tid" then some .vTid
    else if c == "tactic" then some .vTactic
    else if c == "name" then some .vName
    else if c == "requiresladmin" then some .vRequiresLadmin
    else none
  | .Blueprint =>
    if c == "id" then some .bId
    else if c == "name" then some .bName
    else if c == "prefix" then some .bPfx
    else none

/-- `VariantSelectorKey.is_special` (selectors.py:53-55): only
`RequiresLadmin`; every Blueprint key is non-special (selectors.py:67-69). -/
def SelectorKey.isSpecialKey : SelectorKey → Bool
  | .vRequiresLadmin => true
  | _ => false

/-- `selectors.SelectorFilter` (selectors.py:104-108). -/
structure SelectorFilter where
  key : SelectorKey
  value : Option String
  approximate : Bool := false
deriving Repr, DecidableEq

/-- `selectors.Selector` (selectors.py:133-136). -/
structure Selector where
  type : SelectorType
  filters : List SelectorFilter
deriving Repr, DecidableEq

/-- `shlex.split` (selectors.py:154) restricted to inputs without quoting or
escapes (the only forms the grammar's token stream uses in the claims):
split on spaces and drop empty tokens. -/
def shlexSplit (s : String) : List String :=
  (strSplitOnSub s " ").filter (fun t => !t.isEmpty)

/-- The per-token body of the `for token in shlex.split(selectors)` loop in
`Selector.from_str` (selectors.py:154-167): `==` is tested before `~=`;
`token.split(op)` must yield exactly two parts (Python unpacking raises
otherwise); a bare token is a key with value `None`; the key string is
resolved against the selector type's key enum, and an unknown key raises. -/
def tokenToFilter (t : SelectorType) (token : String) :
    Except String SelectorFilter :=
  let parsed : Except String (String × Option String × Bool) :=
    if strHasSub token "==" then
      match strSplitOnSub token "==" with
      | [k, val] => .ok (k, some val, false)
      | _ => .error "ValueError: unpack"
    else if strHasSub token "~=" then
      match strSplitOnSub token "~=" with
      | [k, val] => .ok (k, some val, true)
      | _ => .error "ValueError: unpack"
    else
      .ok (token, none, false)
  match parsed with
  | .error e => .error e
  | .ok (k, val, approx) =>
    match selectorKeyOfString t k with
    | none => .error (k ++ " is not a valid enum member")
    | some key => .ok ⟨key, val, approx⟩

/-- The filter-collection loop of `Selector.from_str` (selectors.py:153-167),
building the filters in token order and propagating the first raise. -/
def tokensToFilters (t : SelectorType) :
    List String → Except String (List SelectorFilter)
  | [] => .ok []
  | tok :: rest =>
    match tokenToFilter t tok with
    | .error e => .error e
    | .ok f =>
      match tokensToFilters t rest with
      | .error e => .error e
      | .ok fs => .ok (f :: fs)

/-- `Selector.from_str` (selectors.py:138-170): check the
`selector(`…`)` frame, strip it by replacing all occurrences of the two
delimiters, take the first space-separated word as the type, resolve it
case-insensitively (`KeyError` on failure propagates), drop the type word,
tokenize the remainder and build a filter per token. -/
def Selector.from_str (v : String) : Except String Selector :=
  if strStartsWith v "selector(" && strEndsWith v ")" then
    let v1 := strReplace (strReplace v "selector(" "") ")" ""
    let selector_type_str := ((strSplitOnSub v1 " ").headD "")
    match selectorTypeOfString selector_type_str with
    | none => .error (selector_type_str ++ " is not a valid enum member")
    | some t =>
      let selectors := strReplace v1 (selector_type_str ++ " ") ""
      match tokensToFilters t (shlexSplit selectors) with
      | .error e => .error e
      | .ok fs => .ok ⟨t, fs⟩
  else
    .error ("Value " ++ v ++ " is not a valid selector")

/-- `VariantSelectorKey.column` (selectors.py:46-51): the Variant column a
non-special key maps to; `none` for special keys and Blueprint keys. -/
def variantKeyColumn (k : SelectorKey) (v : Variant) : Option String :=
  match k with
  | .vId => some v.id
  | .vTid => some v.tid
  | .vTactic => some v.tactic
  | .vName => some v.name
  | _ => none

/-- `BlueprintSelectorKey.column` (selectors.py:63-65). -/
def blueprintKeyColumn (k : SelectorKey) (b : Blueprint) : Option String :=
  match k with
  | .bId => some b.id
  | .bName => some b.name
  | .bPfx => some b.pfx
  | _ => none

/-- SQL `ilike '%pat%'` on a non-null text column: case-insensitive
substring containment (patterns containing their own `%`/`_` wildcards are
not exercised by the source's selector values). -/
def ilikeContains (col pat : String) : Bool :=
  strHasSub (strToLower col) (strToLower pat)

/-- `SelectorFilter.apply_to_query` (selectors.py:110-130) evaluated against
one Variant row:

* special key `RequiresLadmin`: `prerequisites ilike
  cast(["local_admin"], StrListType)` (selectors.py:115-117) — the cast
  serializes the one-element list to the bare string `local_admin`, and an
  `ilike` pattern without wildcards is a case-insensitive equality against
  the serialized column (`NULL` never matches);
* exact (`==`): `col == value`; a `None` value compares as SQL `NULL` and
  matches no non-null column;
* approximate (`~=`): `col.ilike(f"%{value}%")`; a `None` value is
  f-string-formatted to the literal pattern `None`. -/
def SelectorFilter.matchesVariant (f : SelectorFilter) (v : Variant) : Bool :=
  if f.key.isSpecialKey then
    match v.prerequisites with
    | some l => strToLower (strJoin "||" l) == "local_admin"
    | none => false
  else
    match variantKeyColumn f.key v with
    | none => false
    | some col =>
      if !f.approximate then
        match f.value with
        | some s => col == s
        | none => false
      else
        ilikeContains col (match f.value with | some s => s | none => "None")

/-- `SelectorFilter.apply_to_query` against one Blueprint row (no special
Blueprint keys exist). -/
def SelectorFilter.matchesBlueprint (f : SelectorFilter) (b : Blueprint) : Bool :=
  match blueprintKeyColumn f.key b with
  | none => false
  | some col =>
    if !f.approximate then
      match f.value with
      | some s => col == s
      | none => false
    else
      ilikeContains col (match f.value with | some s => s | none => "None")

/-- `Selector.get_matches` (selectors.py:172-183): start from the full table
of the selector's type and conjoin every filter; the result list (possibly
empty — an empty result is not an error) preserves store order. -/
def Selector.get_matches (sel : Selector) (variants : List Variant)
    (blueprints : List Blueprint) : List Variant ⊕ List Blueprint :=
  match sel.type with
  | .Variant =>
    .inl (variants.filter (fun v => sel.filters.all (fun f => f.matchesVariant v)))
  | .Blueprint =>
    .inr (blueprints.filter (fun b => sel.filters.all (fun f => f.matchesBlueprint b)))

/-! ## Concrete instances used in the verification -/

/-- A library variant with base references and guidance, as stored after
ingesting `techniques/T1078/valid-accounts/v1.yml`. -/
def c1Variant : Variant :=
  { id := "v-1", version := 1, name := "valid-accounts",
    display_name := "Valid Accounts", description := "desc",
    platforms := some ["windows"],
    guidance := some ["base guidance"],
    tactic := "TA0001", tid := "T1078",
    references := some ["base-ref"],
    filepath := some "/lib/T1078/valid-accounts/v1.yml" }

/-- A campaign-entry override block carrying all three override fields. -/
def c1Block : OverrideBlock :=
  { version := some "1",
    references := some ["override-ref"],
    guidance := some ["override guidance"],
    name := some "Renamed Valid Accounts" }

/-- The Override row `Blueprint.from_yaml` stores for `c1Block` on the
(variant `v-1`, blueprint `bp-1`, campaign `c-1`) triple. -/
def c1Override : VariantOverride :=
  (blueprintOverrideFromBlock c1Block "v-1" "bp-1" "c-1").1

/-- `c1Variant.render(apply_overrides=True, blueprint_id="bp-1")` against a
session holding exactly `c1Override`, with default settings. -/
def c1Render : RenderedDict :=
  Variant.render c1Variant [c1Override] global_settings_defaults true
    (some "bp-1") (fun _ => []) (fun _ => [])

/-- A hook whose handler always returns. -/
def extOk (n : String) : Extension := ⟨n, fun _ => .ok ()⟩

/-- A hook whose handler always raises. -/
def extRaise (n msg : String) : Extension := ⟨n, fun _ => .error msg⟩

/-- A variant with no tools and nonempty references. -/
def c6Variant : Variant :=
  { id := "v-6", version := 1, name := "foo", display_name := "Foo",
    description := "d", tactic := "TA0002", tid := "T1059",
    tools := none, references := some ["some-ref"] }

/-- `c6Variant.render(apply_overrides=True)` with no blueprint id, empty
session, default settings. -/
def c6Render : RenderedDict :=
  Variant.render c6Variant [] global_settings_defaults true none
    (fun _ => []) (fun _ => [])

/-- The parse of `selector(Variant tid==T1059 name~=foo)`. -/
def c7Selector : Selector :=
  ⟨.Variant, [⟨.vTid, some "T1059", false⟩, ⟨.vName, some "foo", true⟩]⟩

/-- A stored variant with tid `T1059` named `foobar`. -/
def c7VariantFoobar : Variant :=
  { id := "v-7a", version := 1, name := "foobar", display_name := "Foobar",
    description := "d", tactic := "TA0002", tid := "T1059" }

/-- A stored variant with tid `T1059` named `bar`. -/
def c7VariantBar : Variant :=
  { id := "v-7b", version := 1, name := "bar", display_name := "Bar",
    description := "d", tactic := "TA0002", tid := "T1059" }

/-- A variant with no source path set (constructed directly, not from a
file: `filepath` is a nullable column). -/
def c8NoPath : Variant :=
  { id := "v-8a", version := 1, name := "np", display_name := "NP",
    description := "d", tactic := "TA0001", tid := "T1078",
    filepath := none }

/-- A variant whose path's technique-id segment agrees with its tid. -/
def c8GoodPath : Variant :=
  { id := "v-8b", version := 1, name := "good", display_name := "Good",
    description := "d", tactic := "TA0001", tid := "T1078",
    filepath := some "/lib/T1078/good/v1.yml" }

/-- A variant whose path's technique-id segment disagrees with its tid. -/
def c8BadPath : Variant :=
  { id := "v-8c", version := 1, name := "bad", display_name := "Bad",
    description := "d", tactic := "TA0001", tid := "T1078",
    filepath := some "/lib/T1059/bad/v1.yml" }

/-! # Helper lemmas -/

theorem lookupKey_setKey_self (l : List (String × RVal)) (k : String) (v : RVal) :
    lookupKey (setKey l k v) k = some v := by
  induction l with
  | nil => simp [setKey, lookupKey]
  | cons p t ih =>
    obtain ⟨k1, v1⟩ := p
    by_cases h : k1 = k
    · simp [setKey, lookupKey, h]
    · simp [setKey, lookupKey, h, ih]

theorem lookupKey_setKey_ne (l : List (String × RVal)) (k k1 : String) (v : RVal)
    (h : k1 ≠ k) : lookupKey (setKey l k v) k1 = lookupKey l k1 := by
  induction l with
  | nil =>
    simp only [setKey, lookupKey]
    rw [if_neg (Ne.symm h)]
  | cons p t ih =>
    obtain ⟨k2, v2⟩ := p
    simp only [setKey]
    by_cases h2 : k2 = k
    · rw [if_pos h2]
      show lookupKey ((k, v) :: t) k1 = lookupKey ((k2, v2) :: t) k1
      simp only [lookupKey]
      rw [if_neg (Ne.symm h), if_neg (fun hh : k2 = k1 => h (by rw [← hh]; exact h2))]
    · rw [if_neg h2]
      show lookupKey ((k2, v2) :: setKey t k v) k1 = lookupKey ((k2, v2) :: t) k1
      simp only [lookupKey]
      by_cases h3 : k2 = k1
      · rw [if_pos h3, if_pos h3]
      · rw [if_neg h3, if_neg h3]
        exact ih

theorem lookupKey_append_some (l1 l2 : List (String × RVal)) (k : String) (v : RVal)
    (h : lookupKey l1 k = some v) : lookupKey (l1 ++ l2) k = some v := by
  induction l1 with
  | nil => simp [lookupKey] at h
  | cons p t ih =>
    obtain ⟨k1, v1⟩ := p
    simp only [lookupKey] at h
    simp only [List.cons_append, lookupKey]
    by_cases h1 : k1 = k
    · rwa [if_pos h1] at h ⊢
    · rw [if_neg h1] at h ⊢
      exact ih h

theorem renderD3fend_lookup (s : GlobalSettings) (tid : String)
    (d1 d2 : String → List String) (l : List (String × RVal)) (k : String)
    (v : RVal) (h : lookupKey l k = some v) :
    lookupKey (renderD3fend s tid d1 d2 l) k = some v := by
  unfold renderD3fend
  split
  · split
    · exact lookupKey_append_some _ _ _ _ h
    · exact h
  · exact h

theorem renderAddGroups_lookup (s : GlobalSettings) (v : Variant)
    (m : List (String × RVal)) (k : String) (val : RVal)
    (h : lookupKey m k = some val) :
    lookupKey (renderAddGroups s v m) k = some val := by
  unfold renderAddGroups
  split
  · exact lookupKey_append_some _ _ _ _ h
  · exact h

theorem strStartsWith_id_x : strStartsWith "id" "x_" = false := rfl

theorem strStartsWith_tid_x : strStartsWith "tid" "x_" = false := rfl

theorem strStartsWith_tactic_x : strStartsWith "tactic" "x_" = false := rfl

theorem strStartsWith_groups_x : strStartsWith "groups" "x_" = false := rfl

theorem strStartsWith_xtools_x : strStartsWith "x_tools" "x_" = true := rfl

theorem strStartsWith_xreferences_x : strStartsWith "x_references" "x_" = true := rfl

/-- Whatever override (if any) is applied, the pair produced by
`renderApplyOverride` on the freshly built dictionaries has a fixed shape:
the literal key lists of `renderInclude`/`renderMetadata`, with only the
name, guidance and x_references values possibly replaced — and the
x_references value can only be replaced by the override row's own
`references` column. -/
theorem renderApplyOverride_shape (v : Variant) (ovr : Option VariantOverride) :
    ∃ nm gd refs,
      renderApplyOverride ovr (renderInclude v, renderMetadata v) =
        ([("name", .s nm),
          ("description", .s v.description),
          ("platforms", .ls v.platforms),
          ("guidance", .ls gd),
          ("block", .ls v.block),
          ("detect", .ls v.detect),
          ("controls", .ls v.controls)],
         [("id", .s v.id),
          ("tid", .s v.tid),
          ("tactic", .s v.tactic),
          ("x_tools", .ls v.tools),
          ("x_references", .ls refs)]) ∧
      (refs = v.references ∨ ∃ o, ovr = some o ∧ refs = o.references) := by
  cases ovr with
  | none =>
    exact ⟨v.display_name, v.guidance, v.references, rfl, Or.inl rfl⟩
  | some o =>
    by_cases h1 : truthyList o.references <;>
      by_cases h2 : truthyStr o.display_name <;>
        by_cases h3 : truthyList o.guidance <;>
          simp only [renderApplyOverride, renderInclude, renderMetadata, h1, h2, h3,
            if_true, if_false, Bool.false_eq_true, reduceIte]
    · exact ⟨o.display_name.getD "", o.guidance, o.references, rfl,
        Or.inr ⟨o, rfl, rfl⟩⟩
    · exact ⟨o.display_name.getD "", v.guidance, o.references, rfl,
        Or.inr ⟨o, rfl, rfl⟩⟩
    · exact ⟨v.display_name, o.guidance, o.references, rfl, Or.inr ⟨o, rfl, rfl⟩⟩
    · exact ⟨v.display_name, v.guidance, o.references, rfl, Or.inr ⟨o, rfl, rfl⟩⟩
    · exact ⟨o.display_name.getD "", o.guidance, v.references, rfl, Or.inl rfl⟩
    · exact ⟨o.display_name.getD "", v.guidance, v.references, rfl, Or.inl rfl⟩
    · exact ⟨v.display_name, o.guidance, v.references, rfl, Or.inl rfl⟩
    · exact ⟨v.display_name, v.guidance, v.references, rfl, Or.inl rfl⟩

theorem renderFindOverride_mem (v : Variant) (ovs : List VariantOverride)
    (ao : Bool) (bid : Option String) (o : VariantOverride)
    (h : renderFindOverride v ovs ao bid = some o) : o ∈ ovs := by
  unfold renderFindOverride at h
  split at h
  · exact List.mem_of_find?_eq_some h
  · exact absurd h (by simp)

theorem nodup_all_eq_singleton {α : Type} (l : List α) (a : α) (h1 : a ∈ l)
    (h2 : ∀ x ∈ l, x = a) (h3 : l.Nodup) : l = [a] := by
  cases l with
  | nil => exact absurd h1 (List.not_mem_nil a)
  | cons x t =>
    have hx : x = a := h2 x (List.mem_cons_self x t)
    cases t with
    | nil => rw [hx]
    | cons y t2 =>
      have hy : y = a := h2 y (List.mem_cons_of_mem x (List.mem_cons_self y t2))
      have hnotmem := (List.nodup_cons.mp h3).1
      exact absurd (by rw [hx, ← hy]; exact List.mem_cons_self y t2) hnotmem

theorem ingestGo_eq (files : List (Except String Variant)) :
    ingestGo files =
      (files.filterMap (fun f => match f with | .ok v => some v | .error _ => none),
       files.filterMap (fun f => match f with | .ok _ => none | .error m => some m),
       files.any (fun f => match f with | .ok _ => false | .error _ => true)) := by
  induction files with
  | nil => rfl
  | cons f rest ih =>
    cases f <;> simp [ingestGo, ih, List.filterMap_cons, List.any_cons]

theorem emitLoadedIter_fixed (n : Nat) (bp : Blueprint) (log : List EventTypes)
    (h : bp.loaded_flag = true) : emitLoadedIter n (bp, log) = (bp, log) := by
  induction n with
  | zero => rfl
  | succ m ih =>
    have : Blueprint.emit_loaded bp log = (bp, log) := by
      simp [Blueprint.emit_loaded, h]
    simp [emitLoadedIter, this, ih]

theorem run_true_eq (c : VariantCheckDef) (v : Variant) :
    c.run true v = (c.check v, [(c.main v).2]) := rfl

theorem run_false_eq (c : VariantCheckDef) (v : Variant) :
    c.run false v = (true, []) := rfl

theorem map_pair_fst_all {α : Type} (g : α → Bool) (h : α → List String)
    (l : List α) :
    (List.map Prod.fst (l.map (fun c => (g c, h c)))).all id = l.all g := by
  induction l with
  | nil => rfl
  | cons c rest ih =>
    simp only [List.map_map] at ih
    simp [List.map_map, ih]

theorem map_pair_snd_flatten_len {α : Type} (g : α → Bool) (h : α → String)
    (l : List α) :
    (List.map Prod.snd (l.map (fun c => (g c, [h c])))).flatten.length = l.length := by
  induction l with
  | nil => rfl
  | cons c rest ih =>
    simp only [List.map_map] at ih
    simp [List.map_map, ih]

theorem run_all_true_fst (checks : List VariantCheckDef) (v : Variant) :
    (run_all true checks v).1 = checks.all (fun c => c.check v) := by
  unfold run_all
  simp only [run_true_eq]
  exact map_pair_fst_all (fun c => c.check v) (fun c => [(c.main v).2]) checks

theorem run_all_true_logs (checks : List VariantCheckDef) (v : Variant) :
    (run_all true checks v).2.length = checks.length := by
  unfold run_all
  simp only [run_true_eq]
  exact map_pair_snd_flatten_len (fun c => c.check v) (fun c => (c.main v).2) checks

theorem run_all_false_eq (checks : List VariantCheckDef) (v : Variant) :
    run_all false checks v = (true, []) := by
  unfold run_all
  simp only [run_false_eq]
  induction checks with
  | nil => rfl
  | cons c rest ih => simp_all

/-- Lookups in the final metadata dictionary built from the canonical
five-key metadata list: the three plain keys always survive the empty-`x_`
pruning, while the two `x_` keys survive exactly when their value is not
empty. -/
theorem pruneMeta_explicit (s : GlobalSettings) (v : Variant)
    (idv tidv tacv : String) (tools refs : Option (List String)) :
    lookupKey (renderPruneMeta (renderAddGroups s v
        [("id", RVal.s idv), ("tid", RVal.s tidv), ("tactic", RVal.s tacv),
         ("x_tools", RVal.ls tools), ("x_references", RVal.ls refs)])) "id"
      = some (.s idv)
    ∧ lookupKey (renderPruneMeta (renderAddGroups s v
        [("id", RVal.s idv), ("tid", RVal.s tidv), ("tactic", RVal.s tacv),
         ("x_tools", RVal.ls tools), ("x_references", RVal.ls refs)])) "tid"
      = some (.s tidv)
    ∧ lookupKey (renderPruneMeta (renderAddGroups s v
        [("id", RVal.s idv), ("tid", RVal.s tidv), ("tactic", RVal.s tacv),
         ("x_tools", RVal.ls tools), ("x_references", RVal.ls refs)])) "tactic"
      = some (.s tacv)
    ∧ lookupKey (renderPruneMeta (renderAddGroups s v
        [("id", RVal.s idv), ("tid", RVal.s tidv), ("tactic", RVal.s tacv),
         ("x_tools", RVal.ls tools), ("x_references", RVal.ls refs)])) "x_tools"
      = (if metaValueEmpty (.ls tools) then none else some (.ls tools))
    ∧ lookupKey (renderPruneMeta (renderAddGroups s v
        [("id", RVal.s idv), ("tid", RVal.s tidv), ("tactic", RVal.s tacv),
         ("x_tools", RVal.ls tools), ("x_references", RVal.ls refs)])) "x_references"
      = (if metaValueEmpty (.ls refs) then none else some (.ls refs)) := by
  by_cases hg : (s.add_groups && decide (0 < v.groups.length)) = true <;>
    by_cases ht : metaValueEmpty (.ls tools) = true <;>
      by_cases hr : metaValueEmpty (.ls refs) = true <;>
        simp [renderAddGroups, renderPruneMeta, lookupKey, hg, ht, hr,
          strStartsWith_id_x, strStartsWith_tid_x, strStartsWith_tactic_x,
          strStartsWith_groups_x, strStartsWith_xtools_x, strStartsWith_xreferences_x]

theorem emit_event_true_eq (exts : List Extension) (ev : EventTypes) :
    emit_event true exts ev = dispatchHooks exts ev := rfl

theorem dispatchHooks_all_ok (exts : List Extension) (ev : EventTypes)
    (h : ∀ e ∈ exts, e.hook ev = .ok ()) :
    dispatchHooks exts ev = (exts.map Extension.name, none) := by
  induction exts with
  | nil => rfl
  | cons e rest ih =>
    have he : e.hook ev = .ok () := h e (List.mem_cons_self e rest)
    simp only [dispatchHooks, he, List.map_cons]
    rw [ih (fun x hx => h x (List.mem_cons_of_mem e hx))]

theorem dispatchHooks_raise (pre post : List Extension) (e : Extension)
    (ev : EventTypes) (msg : String)
    (hpre : ∀ p ∈ pre, p.hook ev = .ok ()) (he : e.hook ev = .error msg) :
    dispatchHooks (pre ++ e :: post) ev
      = (pre.map Extension.name ++ [e.name], some msg) := by
  induction pre with
  | nil => simp [dispatchHooks, he]
  | cons p rest ih =>
    have hp : p.hook ev = .ok () := hpre p (List.mem_cons_self p rest)
    rw [List.cons_append]
    simp only [dispatchHooks, hp, List.map_cons]
    rw [ih (fun x hx => hpre x (List.mem_cons_of_mem p hx))]
    rfl

/-! # Claims -/

/-- **C1** — code bug.  The claim says the Override record created from a
campaign-entry override block carries exactly the block's references,
guidance and name values and that a subsequent
`render(apply_overrides=True, blueprint_id=B)` reflects them.  In the code
the references value is passed through the misspelled constructor keyword
`referencces=` (sql.py:411), which SQLModel silently drops, so the stored
Override's `references` column is `None` and render keeps the base Variant's
references.  Evaluated here on a block carrying all three override values:
the block's references value (`["override-ref"]`) is dropped from the
record, while guidance and name are carried and reflected by render, and the
rendered metadata still shows the base `["base-ref"]`. -/
theorem c1_override_references_dropped :
    c1Block.references = some ["override-ref"]
    ∧ c1Override.references = none
    ∧ (blueprintOverrideFromBlock c1Block "v-1" "bp-1" "c-1").2 = some ["override-ref"]
    ∧ c1Override.guidance = some ["override guidance"]
    ∧ c1Override.display_name = some "Renamed Valid Accounts"
    ∧ lookupKey c1Render.entries "name" = some (.s "Renamed Valid Accounts")
    ∧ lookupKey c1Render.entries "guidance" = some (.ls (some ["override guidance"]))
    ∧ lookupKey c1Render.metadata "x_references" = some (.ls (some ["base-ref"])) :=
  ⟨rfl, rfl, rfl, rfl, rfl, rfl, rfl, rfl⟩

/-- **C2** — counterexample.  With two loaded hooks of which the first
raises, `emit_event` invokes only the first hook and propagates its
exception to the caller: dispatch does not reach the second hook, refuting
the claim that `emit` never propagates and always reaches every remaining
hook. -/
theorem c2_hook_exception_stops_dispatch :
    emit_event true [extRaise "a" "boom", extOk "b"] EventTypes.DbReady
      = (["a"], some "boom")
    ∧ ¬((emit_event true [extRaise "a" "boom", extOk "b"] EventTypes.DbReady).2 = none
        ∧ (emit_event true [extRaise "a" "boom", extOk "b"] EventTypes.DbReady).1
            = ["a", "b"]) :=
  ⟨rfl, by decide⟩

/-- **C2** — amended.  `emit_event` invokes every loaded hook's handler in
order when all handlers return; when some handler raises, the hooks before
it are invoked, it is invoked, the exception propagates out of `emit_event`,
and the remaining hooks are not reached; when extensions are disabled,
`emit_event` is a no-op. -/
theorem c2_emit_event_dispatch :
    (∀ (exts : List Extension) (ev : EventTypes),
      (∀ e ∈ exts, e.hook ev = .ok ()) →
      emit_event true exts ev = (exts.map Extension.name, none))
    ∧ (∀ (pre post : List Extension) (e : Extension) (ev : EventTypes) (msg : String),
      (∀ p ∈ pre, p.hook ev = .ok ()) → e.hook ev = .error msg →
      emit_event true (pre ++ e :: post) ev
        = (pre.map Extension.name ++ [e.name], some msg))
    ∧ (∀ (exts : List Extension) (ev : EventTypes),
      emit_event false exts ev = ([], none)) := by
  refine ⟨?_, ?_, fun exts ev => rfl⟩
  · intro exts ev h
    rw [emit_event_true_eq]
    exact dispatchHooks_all_ok exts ev h
  · intro pre post e ev msg hpre he
    rw [emit_event_true_eq]
    exact dispatchHooks_raise pre post e ev msg hpre he

/-- Witness for the amended C2 theorem at a concrete hook list: hook `a`
returns, hook `b` raises `boom`, hook `c` is never invoked. -/
theorem c2_emit_event_dispatch_witness :
    emit_event true [extOk "a", extRaise "b" "boom", extOk "c"] EventTypes.Init
      = (["a", "b"], some "boom") :=
  c2_emit_event_dispatch.2.1 [extOk "a"] [extOk "c"] (extRaise "b" "boom")
    EventTypes.Init "boom"
    (fun p hp => by rw [List.mem_singleton.mp hp]; rfl)
    rfl

/-- **C3** — `lookup_variant` resolution: a stored Variant that is the only
match of its (tid, name, version) triple is returned exactly; a triple with
no match raises the "could not locate" error; a triple with more than one
match raises the "duplicate variants" error. -/
theorem c3_lookup_variant_resolution :
    ∀ (store : List Variant),
      (∀ v ∈ store, store.Nodup →
        (∀ w ∈ store, w.tid = v.tid → w.name = v.name → w.version = v.version → w = v) →
        lookup_variant store v.tid v.name v.version = .ok v)
      ∧ (∀ (tid name : String) (ver : Nat),
          (∀ w ∈ store, ¬(w.name = name ∧ w.version = ver ∧ w.tid = tid)) →
          lookup_variant store tid name ver =
            .error ("Could not locate version \"" ++ toString ver ++
              "\" of variant \"" ++ name ++ "\" (\"" ++ tid ++ "\")"))
      ∧ (∀ (tid name : String) (ver : Nat),
          1 < (store.filter (fun w =>
            w.name == name && w.version == ver && w.tid == tid)).length →
          lookup_variant store tid name ver =
            .error ("Duplicate variants for version \"" ++ toString ver ++
              "\" of variant \"" ++ name ++ "\" (\"" ++ tid ++ "\")")) := by
  intro store
  refine ⟨?_, ?_, ?_⟩
  · intro v hv hnd huniq
    have hfilter : store.filter (fun w =>
        w.name == v.name && w.version == v.version && w.tid == v.tid) = [v] := by
      apply nodup_all_eq_singleton
      · rw [List.mem_filter]
        exact ⟨hv, by simp⟩
      · intro x hx
        rw [List.mem_filter] at hx
        obtain ⟨hx1, hx2⟩ := hx
        simp only [Bool.and_eq_true, beq_iff_eq] at hx2
        exact huniq x hx1 hx2.2 hx2.1.1 hx2.1.2
      · exact hnd.filter _
    simp [lookup_variant, hfilter]
  · intro tid name ver hno
    have hfilter : store.filter (fun w =>
        w.name == name && w.version == ver && w.tid == tid) = [] := by
      rw [List.filter_eq_nil_iff]
      intro w hw
      simp only [Bool.and_eq_true, beq_iff_eq]
      intro hcond
      exact hno w hw ⟨hcond.1.1, hcond.1.2, hcond.2⟩
    simp [lookup_variant, hfilter]
  · intro tid name ver hdup
    simp [lookup_variant, if_pos hdup]

/-- Witness for C3 at a concrete store: the unique (T1059, foobar, 1)
variant resolves to itself; the missing triple and the duplicated triple
raise. -/
theorem c3_lookup_variant_resolution_witness :
    lookup_variant [c7VariantFoobar, c7VariantBar] "T1059" "foobar" 1
      = .ok c7VariantFoobar
    ∧ lookup_variant [c7VariantFoobar] "T1059" "missing" 1
      = .error "Could not locate version \"1\" of variant \"missing\" (\"T1059\")"
    ∧ lookup_variant [c7VariantFoobar, c7VariantFoobar] "T1059" "foobar" 1
      = .error "Duplicate variants for version \"1\" of variant \"foobar\" (\"T1059\")" :=
  ⟨(c3_lookup_variant_resolution [c7VariantFoobar, c7VariantBar]).1 c7VariantFoobar
      (by decide) (by decide) (by decide),
   (c3_lookup_variant_resolution [c7VariantFoobar]).2.1 "T1059" "missing" 1 (by decide),
   (c3_lookup_variant_resolution [c7VariantFoobar, c7VariantFoobar]).2.2 "T1059" "foobar" 1
      (by decide)⟩

/-- **C4** — fail-at-end library ingestion: every well-formed file's Variant
is stored (in file order, including those after a failure), every failure is
logged, success is reported exactly when every file parsed, and any failure
makes the run raise the single aggregate error — after the whole list was
processed, as witnessed by the store still containing every well-formed
Variant. -/
theorem c4_ingest_fail_at_end :
    ∀ (files : List (Except String Variant)),
      (ingest_variants_from_library files).1 =
        files.filterMap (fun f => match f with | .ok v => some v | .error _ => none)
      ∧ (ingest_variants_from_library files).2.1 =
        files.filterMap (fun f => match f with | .ok _ => none | .error m => some m)
      ∧ ((ingest_variants_from_library files).2.2 = .ok () ↔
          ∀ f ∈ files, ∃ v, f = .ok v)
      ∧ ((∃ m, .error m ∈ files) →
          (ingest_variants_from_library files).2.2 = .error aggregateIngestMsg) := by
  intro files
  refine ⟨?_, ?_, ?_, ?_⟩
  · simp [ingest_variants_from_library, ingestGo_eq]
  · simp [ingest_variants_from_library, ingestGo_eq]
  · simp only [ingest_variants_from_library, ingestGo_eq]
    cases hany : files.any (fun f => match f with | .ok _ => false | .error _ => true) with
    | false =>
      simp only [Bool.false_eq_true, reduceIte]
      constructor
      · intro _ f hf
        cases f with
        | ok v => exact ⟨v, rfl⟩
        | error m =>
          rw [List.any_eq_false] at hany
          exact absurd rfl (hany (.error m) hf)
      · intro _
        trivial
    | true =>
      simp only [reduceIte]
      constructor
      · intro h
        exact absurd h (by simp [aggregateIngestMsg])
      · intro hall
        rw [List.any_eq_true] at hany
        obtain ⟨f, hf, hft⟩ := hany
        cases f with
        | ok v => simp at hft
        | error m =>
          obtain ⟨v, hv⟩ := hall (.error m) hf
          exact absurd hv (by simp)
  · intro ⟨m, hm⟩
    simp only [ingest_variants_from_library, ingestGo_eq]
    have hany : files.any (fun f => match f with | .ok _ => false | .error _ => true) = true := by
      rw [List.any_eq_true]
      exact ⟨.error m, hm, rfl⟩
    simp [hany]

/-- Witness for C4 at a concrete library directory with one well-formed and
one malformed file (in that order, malformed first): the well-formed Variant
is stored, the failure is logged, and the aggregate error is raised. -/
theorem c4_ingest_fail_at_end_witness :
    (ingest_variants_from_library [.error "bad yaml", .ok c7VariantFoobar]).1
      = [c7VariantFoobar]
    ∧ (ingest_variants_from_library [.error "bad yaml", .ok c7VariantFoobar]).2.1
      = ["bad yaml"]
    ∧ (ingest_variants_from_library [.error "bad yaml", .ok c7VariantFoobar]).2.2
      = .error aggregateIngestMsg :=
  ⟨(c4_ingest_fail_at_end [.error "bad yaml", .ok c7VariantFoobar]).1,
   (c4_ingest_fail_at_end [.error "bad yaml", .ok c7VariantFoobar]).2.1,
   (c4_ingest_fail_at_end [.error "bad yaml", .ok c7VariantFoobar]).2.2.2
     ⟨"bad yaml", List.mem_cons_self _ _⟩⟩

/-- **C5** — `emit_loaded` idempotence: on an instance already flagged
loaded the call is a no-op, and starting from a freshly constructed instance
(flag down) any positive number of calls emits `BlueprintLoaded` exactly
once more than the prior log and leaves the flag up. -/
theorem c5_emit_loaded_once :
    (∀ (bp : Blueprint) (log : List EventTypes), bp.loaded_flag = true →
      Blueprint.emit_loaded bp log = (bp, log))
    ∧ (∀ (bp : Blueprint) (log : List EventTypes) (n : Nat), bp.loaded_flag = false →
      (emitLoadedIter (n + 1) (bp, log)).2.count EventTypes.BlueprintLoaded
        = log.count EventTypes.BlueprintLoaded + 1
      ∧ (emitLoadedIter (n + 1) (bp, log)).1.loaded_flag = true) := by
  constructor
  · intro bp log h
    simp [Blueprint.emit_loaded, h]
  · intro bp log n h
    have hstep : Blueprint.emit_loaded bp log =
        ({ bp with loaded_flag := true }, log ++ [EventTypes.BlueprintLoaded]) := by
      simp [Blueprint.emit_loaded, h]
    have hiter : emitLoadedIter (n + 1) (bp, log) =
        ({ bp with loaded_flag := true }, log ++ [EventTypes.BlueprintLoaded]) := by
      simp only [emitLoadedIter, hstep]
      exact emitLoadedIter_fixed n _ _ rfl
    rw [hiter]
    constructor
    · simp [List.count_append]
    · rfl

/-- Witness for C5: two consecutive `emit_loaded` calls on a freshly loaded
blueprint leave exactly one `BlueprintLoaded` in the log. -/
theorem c5_emit_loaded_once_witness :
    (emitLoadedIter 2 (({ id := "bp-5", name := "bp", description := "d" } : Blueprint),
        ([] : List EventTypes))).2.count EventTypes.BlueprintLoaded
      = ([] : List EventTypes).count EventTypes.BlueprintLoaded + 1
    ∧ (emitLoadedIter 2 (({ id := "bp-5", name := "bp", description := "d" } : Blueprint),
        ([] : List EventTypes))).1.loaded_flag = true :=
  c5_emit_loaded_once.2 { id := "bp-5", name := "bp", description := "d" } [] 1 rfl

/-- **C6** — counterexample.  The claim says the rendered metadata block
always contains the tools key, including when the Variant's tools list is
unset; but render deletes empty `x_` metadata keys (sql.py:225-229), so for
a Variant with `tools = None` the rendered metadata holds the key under
neither its `x_tools` name nor a plain `tools` name. -/
theorem c6_empty_tools_metadata_key_missing :
    c6Variant.tools = none
    ∧ lookupKey c6Render.metadata "x_tools" = none
    ∧ lookupKey c6Render.metadata "tools" = none :=
  ⟨rfl, rfl, rfl⟩

/-- **C6** — amended.  For every Variant and every combination of
`apply_overrides`/`blueprint_id` (and any session, settings and D3FEND
collaborators), the rendered dictionary always contains the keys name,
description, platforms, guidance, block, detect and controls, and its
metadata block always contains id, tid and tactic; the tools and references
entries are stored under the keys `x_tools` and `x_references` and are
present exactly when their value is non-empty (the references value being
either the Variant's own or the one carried by an Override row of the
session). -/
theorem c6_render_always_present_keys :
    ∀ (v : Variant) (ovs : List VariantOverride) (s : GlobalSettings) (ao : Bool)
      (bid : Option String) (d1 d2 : String → List String),
      (∃ nm, lookupKey (Variant.render v ovs s ao bid d1 d2).entries "name"
        = some (.s nm))
      ∧ lookupKey (Variant.render v ovs s ao bid d1 d2).entries "description"
          = some (.s v.description)
      ∧ lookupKey (Variant.render v ovs s ao bid d1 d2).entries "platforms"
          = some (.ls v.platforms)
      ∧ (∃ gd, lookupKey (Variant.render v ovs s ao bid d1 d2).entries "guidance"
          = some (.ls gd))
      ∧ lookupKey (Variant.render v ovs s ao bid d1 d2).entries "block"
          = some (.ls v.block)
      ∧ lookupKey (Variant.render v ovs s ao bid d1 d2).entries "detect"
          = some (.ls v.detect)
      ∧ lookupKey (Variant.render v ovs s ao bid d1 d2).entries "controls"
          = some (.ls v.controls)
      ∧ lookupKey (Variant.render v ovs s ao bid d1 d2).metadata "id"
          = some (.s v.id)
      ∧ lookupKey (Variant.render v ovs s ao bid d1 d2).metadata "tid"
          = some (.s v.tid)
      ∧ lookupKey (Variant.render v ovs s ao bid d1 d2).metadata "tactic"
          = some (.s v.tactic)
      ∧ lookupKey (Variant.render v ovs s ao bid d1 d2).metadata "x_tools"
          = (if metaValueEmpty (.ls v.tools) then none else some (.ls v.tools))
      ∧ (∃ refs, (refs = v.references ∨ ∃ o ∈ ovs, refs = o.references)
          ∧ lookupKey (Variant.render v ovs s ao bid d1 d2).metadata "x_references"
              = (if metaValueEmpty (.ls refs) then none else some (.ls refs))) := by
  intro v ovs s ao bid d1 d2
  obtain ⟨nm, gd, refs, hshape, hrefs⟩ :=
    renderApplyOverride_shape v (renderFindOverride v ovs ao bid)
  have he2 : (Variant.render v ovs s ao bid d1 d2).entries
      = renderD3fend s v.tid d1 d2
          [("name", .s nm),
           ("description", .s v.description),
           ("platforms", .ls v.platforms),
           ("guidance", .ls gd),
           ("block", .ls v.block),
           ("detect", .ls v.detect),
           ("controls", .ls v.controls)] := by
    show renderD3fend s v.tid d1 d2
        (renderApplyOverride (renderFindOverride v ovs ao bid)
          (renderInclude v, renderMetadata v)).1 = _
    rw [hshape]
  have hm2 : (Variant.render v ovs s ao bid d1 d2).metadata
      = renderPruneMeta (renderAddGroups s v
          [("id", RVal.s v.id), ("tid", RVal.s v.tid), ("tactic", RVal.s v.tactic),
           ("x_tools", RVal.ls v.tools), ("x_references", RVal.ls refs)]) := by
    show renderPruneMeta (renderAddGroups s v
        (renderApplyOverride (renderFindOverride v ovs ao bid)
          (renderInclude v, renderMetadata v)).2) = _
    rw [hshape]
  have hrefs2 : refs = v.references ∨ ∃ o ∈ ovs, refs = o.references := by
    rcases hrefs with h | ⟨o, ho, h⟩
    · exact Or.inl h
    · exact Or.inr ⟨o, renderFindOverride_mem v ovs ao bid o ho, h⟩
  have hp := pruneMeta_explicit s v v.id v.tid v.tactic v.tools refs
  refine ⟨⟨nm, ?_⟩, ?_, ?_, ⟨gd, ?_⟩, ?_, ?_, ?_, ?_, ?_, ?_, ?_, ⟨refs, hrefs2, ?_⟩⟩
  · rw [he2]; exact renderD3fend_lookup _ _ _ _ _ _ _ rfl
  · rw [he2]; exact renderD3fend_lookup _ _ _ _ _ _ _ rfl
  · rw [he2]; exact renderD3fend_lookup _ _ _ _ _ _ _ rfl
  · rw [he2]; exact renderD3fend_lookup _ _ _ _ _ _ _ rfl
  · rw [he2]; exact renderD3fend_lookup _ _ _ _ _ _ _ rfl
  · rw [he2]; exact renderD3fend_lookup _ _ _ _ _ _ _ rfl
  · rw [he2]; exact renderD3fend_lookup _ _ _ _ _ _ _ rfl
  · rw [hm2]; exact hp.1
  · rw [hm2]; exact hp.2.1
  · rw [hm2]; exact hp.2.2.1
  · rw [hm2]; exact hp.2.2.2.1
  · rw [hm2]; exact hp.2.2.2.2

/-- **C7** — selector round trip.  Parsing
`selector(Variant tid==T1059 name~=foo)` yields the Variant selector with an
exact tid filter and an approximate name filter; evaluating it against a
store whose only record is the T1059 variant named `foobar` returns exactly
that variant, against one named `bar` returns the empty list (not an error);
and in general the parsed selector matches exactly the stored Variants whose
tid equals `T1059` and whose name contains `foo` case-insensitively. -/
theorem c7_selector_round_trip :
    Selector.from_str "selector(Variant tid==T1059 name~=foo)" = .ok c7Selector
    ∧ Selector.get_matches c7Selector [c7VariantFoobar] [] = .inl [c7VariantFoobar]
    ∧ Selector.get_matches c7Selector [c7VariantBar] [] = .inl []
    ∧ ∀ (store : List Variant),
        Selector.get_matches c7Selector store [] =
          .inl (store.filter (fun v =>
            v.tid == "T1059" && strHasSub (strToLower v.name) "foo")) := by
  refine ⟨rfl, by decide, by decide, ?_⟩
  intro store
  show Sum.inl (store.filter fun v => c7Selector.filters.all fun f =>
    f.matchesVariant v) = _
  congr 1
  apply List.filter_congr
  intro v _
  simp only [c7Selector, List.all_cons, List.all_nil, Bool.and_true]
  rfl

/-- **C8** — code bug.  The claim (and the check's own docstring) says
`PathTechniqueMatch` passes vacuously when no source path is set; the code
calls `Path(None)` in that case and raises `TypeError` instead
(checks.py:109 has no filepath guard).  When a path is set, the check does
return exactly the comparison of the path's technique-id segment with the
declared tid. -/
theorem c8_path_check_behavior :
    VariantTidPathTidMatch_check c8NoPath =
      .error "TypeError: argument should be a str or an os.PathLike object, not NoneType"
    ∧ VariantTidPathTidMatch_check c8GoodPath = .ok true
    ∧ VariantTidPathTidMatch_check c8BadPath = .ok false :=
  ⟨rfl, rfl, rfl⟩

/-- **C9** — check registry.  With validation enabled, a registry containing
a failing check makes `run_all` return false, and one log line is produced
per registered check; with the global toggle off, `run` returns true with no
logging regardless of the check predicate (which is never invoked), so
`run_all` returns true for every registry. -/
theorem c9_check_registry :
    (∀ (checks : List VariantCheckDef) (v : Variant),
      (∃ c ∈ checks, c.check v = false) → (run_all true checks v).1 = false)
    ∧ (∀ (checks : List VariantCheckDef) (v : Variant),
        (run_all true checks v).2.length = checks.length)
    ∧ (∀ (nm : String) (p : Variant → Bool) (v : Variant),
        VariantCheckDef.run false ⟨nm, p⟩ v = (true, []))
    ∧ (∀ (checks : List VariantCheckDef) (v : Variant),
        (run_all false checks v).1 = true) := by
  refine ⟨?_, run_all_true_logs, fun nm p v => rfl,
    fun checks v => by rw [run_all_false_eq]⟩
  intro checks v h
  obtain ⟨c, hc, hfalse⟩ := h
  rw [run_all_true_fst]
  cases hall : checks.all (fun c => c.check v) with
  | false => rfl
  | true =>
    have := List.all_eq_true.mp hall c hc
    rw [hfalse] at this
    exact absurd this (by simp)

/-- Witness for C9: a registry of one passing and one failing check makes
`run_all` return false on a concrete variant. -/
theorem c9_check_registry_witness :
    (run_all true [⟨"pass", fun _ => true⟩, ⟨"fail", fun _ => false⟩] c8GoodPath).1
      = false :=
  c9_check_registry.1 [⟨"pass", fun _ => true⟩, ⟨"fail", fun _ => false⟩] c8GoodPath
    ⟨⟨"fail", fun _ => false⟩, List.mem_cons_of_mem _ (List.mem_cons_self _ _), rfl⟩

/-- **C10** — linked data requires a target.  Constructing a `LinkedData`
record with both `variant_id` and `blueprint_id` null raises; any
successfully constructed record has at least one of the two set, and the
identifiers are stored exactly as given — no store is consulted, so neither
is validated against existing Variants or Blueprints. -/
theorem c10_linkeddata_target_required :
    ∀ (vid bid : Option String) (tt : LinkedDataTarget) (df : LinkedDataFormat)
      (data origin dn : String),
      (vid = none → bid = none →
        mkLinkedData vid bid tt df data origin dn =
          .error "Variant ID and Blueprint ID for linked data cannot both be null")
      ∧ (∀ ld, mkLinkedData vid bid tt df data origin dn = .ok ld →
          (vid ≠ none ∨ bid ≠ none)
          ∧ ld.variant_id = vid ∧ ld.blueprint_id = bid) := by
  intro vid bid tt df data origin dn
  constructor
  · intro h1 h2
    subst h1
    subst h2
    rfl
  · intro ld h
    unfold mkLinkedData at h
    by_cases hc : (vid == none && bid == none) = true
    · rw [if_pos hc] at h
      exact absurd h (by simp)
    · rw [if_neg hc] at h
      injection h with hh
      subst hh
      refine ⟨?_, rfl, rfl⟩
      rcases vid with _ | x
      · rcases bid with _ | y
        · exact absurd (by decide) hc
        · exact Or.inr (by simp)
      · exact Or.inl (by simp)

/-- Witness for C10: a record constructed with only a variant id has its
target identifiers stored exactly, one of them set. -/
theorem c10_linkeddata_target_required_witness :
    ((some "v-1" : Option String) ≠ none ∨ (none : Option String) ≠ none)
    ∧ (LinkedData.mk (some "v-1") none .Variant .Plaintext "payload" "orig" "dn").variant_id
        = some "v-1"
    ∧ (LinkedData.mk (some "v-1") none .Variant .Plaintext "payload" "orig" "dn").blueprint_id
        = none :=
  (c10_linkeddata_target_required (some "v-1") none .Variant .Plaintext
      "payload" "orig" "dn").2
    (LinkedData.mk (some "v-1") none .Variant .Plaintext "payload" "orig" "dn") rfl

end LibMM
